import Mathlib

/-!
# Booth access and operator session lifecycle: a shallow embedding

This file embeds the booth-code / operator-session core of the
festival-digital repository in Lean 4 and proves properties of it.

The embedding follows the source modules:
* `src/js/operator-auth.js` (booth-code half): `generateBoothCode`,
  `isCodeUnique`, `generateUniqueBoothCode`, `validateBoothCode`,
  `startBoothOperation` (the force-close variant), `endBoothOperation`,
  and the local-storage session helper `getOperatorSession`;
* `src/js/auth-manager.js` (booth-operation half): `startBoothOperation`
  (the admission-checked variant, prefixed `AM_` here), `endBoothOperation`
  (prefixed `AM_`), `getCurrentOperation`;
* `docs/booth-code-setup.sql`: the database functions `check_ip_attempts`
  and `validate_booth_code`.

Modelling conventions: timestamps are `Nat` instants (seconds, so one hour
is `3600`); the relational store is a record of lists; Supabase point
lookups with `.single()` are `List.find?`; row updates are `List.map`;
row deletes are `List.filter`; storage writes are modelled as always
succeeding; JavaScript's `Math.random()` draws are explicit parameters
(`Fin 26` / `Fin 10` index streams); `Date.now()` is an explicit `Nat`
parameter.
-/

namespace FestivalBooth

/-- Row of the `booths` table (columns used by the core). -/
structure Booth where
  id : Nat
  name : String
  booth_code : Option String
  code_expires_at : Option Nat
  is_active : Bool
  max_operators : Option Nat
deriving DecidableEq

/-- Row of the `booth_operations` table. -/
structure BoothOperation where
  id : Nat
  booth_id : Nat
  operator_name : String
  operator_phone : Option String
  started_at : Nat
  ended_at : Option Nat
  is_active : Bool
  total_participants : Nat
deriving DecidableEq

/-- Row of the `operator_sessions` table. -/
structure OperatorSession where
  session_token : String
  booth_operation_id : Nat
  expires_at : Nat
  last_activity : Nat
  ip_address : Option String
deriving DecidableEq

/-- The failure reasons recorded in `code_attempts.error_message`
(the source stores Korean strings; one constructor per distinct string). -/
inductive AttemptReason where
  | rateLimited
  | wrongCode
  | expiredCode
  | inactiveBooth
deriving DecidableEq

/-- Row of the `code_attempts` audit table. -/
structure CodeAttempt where
  attempted_code : String
  ip_address : Option String
  attempted_at : Nat
  success : Bool
  booth_id : Option Nat
  error_message : Option AttemptReason
deriving DecidableEq

/-- Row of the external `participants` table (columns used by the core). -/
structure Participant where
  id : Nat
  booth_id : Nat
  created_at : Nat
deriving DecidableEq

/-- The relational store: the tables touched by the core. -/
structure DB where
  booths : List Booth
  booth_operations : List BoothOperation
  operator_sessions : List OperatorSession
  code_attempts : List CodeAttempt
  participants : List Participant
deriving DecidableEq

/-! ## Code generator (`generateBoothCode`, `isCodeUnique`,
`generateUniqueBoothCode` in operator-auth.js) -/

/-- The letter alphabet of `generateBoothCode`. -/
def lettersAlphabet : List Char := "ABCDEFGHIJKLMNOPQRSTUVWXYZ".toList

/-- The digit alphabet of `generateBoothCode`. -/
def digitsAlphabet : List Char := "0123456789".toList

/-- `generateBoothCode`: three random letters followed by three random
digits.  The `Math.floor(Math.random() * length)` draws are the explicit
index streams `ls` and `ds`. -/
def generateBoothCode (ls : Fin 3 → Fin 26) (ds : Fin 3 → Fin 10) : String :=
  String.mk [lettersAlphabet.getD (ls 0).val 'A',
             lettersAlphabet.getD (ls 1).val 'A',
             lettersAlphabet.getD (ls 2).val 'A',
             digitsAlphabet.getD (ds 0).val '0',
             digitsAlphabet.getD (ds 1).val '0',
             digitsAlphabet.getD (ds 2).val '0']

/-- `isCodeUnique`: a code is unique when no booth currently holds it. -/
def isCodeUnique (db : DB) (code : String) : Bool :=
  (db.booths.find? (fun b => b.booth_code == some code)).isNone

/-- The candidate loop of `generateUniqueBoothCode`: up to `fuel` draws
from the stream starting at index `i`; the first candidate passing
`isCodeUnique` is returned. -/
def genAttempts (db : DB) (rand : Nat → (Fin 3 → Fin 26) × (Fin 3 → Fin 10)) :
    Nat → Nat → Option String
  | 0, _ => none
  | fuel + 1, i =>
    if isCodeUnique db (generateBoothCode (rand i).1 (rand i).2) then
      some (generateBoothCode (rand i).1 (rand i).2)
    else
      genAttempts db rand fuel (i + 1)

/-- One base-36 digit, directly uppercase (the source lowercases via
`toString(36)` and then applies `toUpperCase`). -/
def base36UpperChar (n : Nat) : Char :=
  if n < 10 then Char.ofNat (48 + n) else Char.ofNat (55 + n)

/-- Fuel-driven base-36 conversion, most significant digit first. -/
def toBase36Aux : Nat → Nat → List Char → List Char
  | 0, _, acc => acc
  | fuel + 1, n, acc =>
    if n < 36 then base36UpperChar n :: acc
    else toBase36Aux fuel (n / 36) (base36UpperChar (n % 36) :: acc)

/-- `n.toString(36).toUpperCase()` as a character list. -/
def toBase36Upper (n : Nat) : List Char := toBase36Aux (n + 1) n []

/-- JavaScript `substr(-3)`: the last three characters (the whole list
when it is shorter). -/
def lastThree (cs : List Char) : List Char := cs.drop (cs.length - 3)

/-- The degraded fallback of `generateUniqueBoothCode`:
`'XX' + Date.now().toString(36).substr(-3).toUpperCase() + digit`. -/
def fallbackBoothCode (timestamp : Nat) (d : Fin 10) : String :=
  String.mk ('X' :: 'X' :: (lastThree (toBase36Upper timestamp) ++ [digitsAlphabet.getD d.val '0']))

/-- `generateUniqueBoothCode(maxAttempts)`: try up to `maxAttempts`
candidates, then fall back to the timestamp-derived code. -/
def generateUniqueBoothCode (db : DB) (rand : Nat → (Fin 3 → Fin 26) × (Fin 3 → Fin 10))
    (maxAttempts : Nat) (timestamp : Nat) (d : Fin 10) : String :=
  match genAttempts db rand maxAttempts 0 with
  | some code => code
  | none => fallbackBoothCode timestamp d

/-- The documented code format: exactly three uppercase ASCII letters
followed by three decimal digits. -/
def isUpperLetter (c : Char) : Bool := decide ('A' ≤ c) && decide (c ≤ 'Z')

/-- Decimal digit test on characters. -/
def isDigitChar (c : Char) : Bool := decide ('0' ≤ c) && decide (c ≤ '9')

/-- Whether a string is three uppercase letters followed by three digits. -/
def codeFormatOk (s : String) : Bool :=
  match s.toList with
  | [a, b, c, d, e, f] =>
    isUpperLetter a && isUpperLetter b && isUpperLetter c &&
    isDigitChar d && isDigitChar e && isDigitChar f
  | _ => false

/-! ## Rate limiter and code validator (SQL `check_ip_attempts` and
`validate_booth_code`, JS `validateBoothCode`) -/

/-- SQL `check_ip_attempts`: failed attempts from `ip` strictly inside
the trailing hour.  `attempted_at > now - 1 hour` is rendered as
`now < attempted_at + 3600` to avoid truncated subtraction. -/
def check_ip_attempts (db : DB) (now : Nat) (ip : String) : Nat :=
  (db.code_attempts.filter (fun a =>
    a.ip_address == some ip && decide (now < a.attempted_at + 3600) && a.success == false)).length

/-- Appending one row to the `code_attempts` audit table. -/
def recordAttempt (db : DB) (a : CodeAttempt) : DB :=
  { db with code_attempts := a :: db.code_attempts }

/-- Outcome of code validation. -/
inductive ValidationResult where
  | invalid (reason : AttemptReason)
  | valid (boothId : Nat) (boothName : String)
deriving DecidableEq

/-- `codeExpiresAt` set and strictly in the past. -/
def codeExpired (b : Booth) (now : Nat) : Bool :=
  match b.code_expires_at with
  | none => false
  | some e => decide (e < now)

/-- SQL `validate_booth_code(input_code, input_ip)`: rate-limit gate,
then exact-match booth lookup, expiry check, active check; every branch
inserts exactly one `code_attempts` row. -/
def validate_booth_code (db : DB) (now : Nat) (code ip : String) : DB × ValidationResult :=
  if 5 ≤ check_ip_attempts db now ip then
    (recordAttempt db ⟨code, some ip, now, false, none, some .rateLimited⟩,
     .invalid .rateLimited)
  else
    match db.booths.find? (fun b => b.booth_code == some code) with
    | none =>
      (recordAttempt db ⟨code, some ip, now, false, none, some .wrongCode⟩,
       .invalid .wrongCode)
    | some b =>
      if codeExpired b now then
        (recordAttempt db ⟨code, some ip, now, false, some b.id, some .expiredCode⟩,
         .invalid .expiredCode)
      else if b.is_active = false then
        (recordAttempt db ⟨code, some ip, now, false, some b.id, some .inactiveBooth⟩,
         .invalid .inactiveBooth)
      else
        (recordAttempt db ⟨code, some ip, now, true, some b.id, none⟩,
         .valid b.id b.name)

/-- JS `validateBoothCode(code)` from operator-auth.js: lookup, expiry
check, active check.  It takes no source address, performs no rate
limiting, and writes nothing (the returned store is the input store). -/
def validateBoothCode (db : DB) (now : Nat) (code : String) : DB × ValidationResult :=
  match db.booths.find? (fun b => b.booth_code == some code) with
  | none => (db, .invalid .wrongCode)
  | some b =>
    if codeExpired b now then (db, .invalid .expiredCode)
    else if b.is_active = false then (db, .invalid .inactiveBooth)
    else (db, .valid b.id b.name)

/-! ## Operation lifecycle -/

/-- Operator info passed to the start functions. -/
structure OperatorInfo where
  name : String
  phone : Option String
  email : Option String
  organization : Option String
  notes : Option String
deriving DecidableEq

/-- `phone.replace(/[^0-9]/g, '')`. -/
def digitsOf (s : String) : String := String.mk (s.toList.filter Char.isDigit)

/-- `booth.max_operators || 3`: JavaScript treats both `null` and `0` as
falsy, so both yield the default 3. -/
def effMaxOperators (b : Booth) : Nat :=
  match b.max_operators with
  | none => 3
  | some m => if m = 0 then 3 else m

/-- Count of `is_active = true` operation rows of one booth. -/
def activeOpsCount (ops : List BoothOperation) (boothId : Nat) : Nat :=
  (ops.filter (fun op => op.booth_id == boothId && op.is_active)).length

/-- Result of the admission-checked start (auth-manager.js). -/
inductive StartResult where
  | ok (operationId : Nat) (sessionToken : String)
  | errMissingInfo
  | errBadPhone
  | errCapacity (limit : Nat)
deriving DecidableEq

/-- The insert step of auth-manager's `startBoothOperation`: one new
active operation row plus one session row expiring eight hours later. -/
def AM_insertOperation (db : DB) (now boothId : Nat) (opName digits : String)
    (newOpId : Nat) (newToken : String) (ip : Option String) : DB × StartResult :=
  ({ db with
      booth_operations :=
        ⟨newOpId, boothId, opName, some digits, now, none, true, 0⟩ :: db.booth_operations,
      operator_sessions :=
        ⟨newToken, newOpId, now + 8 * 3600, now, ip⟩ :: db.operator_sessions },
   .ok newOpId newToken)

/-- auth-manager.js `startBoothOperation(boothId, operatorInfo)`:
required name and phone, phone at least ten digits after stripping,
then the admission check `activeOperations.length >= (max_operators || 3)`
(skipped when the booth row is not found, matching `booth && ...`),
then the insert. -/
def AM_startBoothOperation (db : DB) (now boothId : Nat) (info : OperatorInfo)
    (newOpId : Nat) (newToken : String) (ip : Option String) : DB × StartResult :=
  if info.name = "" then (db, .errMissingInfo)
  else
    match info.phone with
    | none => (db, .errMissingInfo)
    | some ph =>
      if ph = "" then (db, .errMissingInfo)
      else if (digitsOf ph).length < 10 then (db, .errBadPhone)
      else
        match db.booths.find? (fun b => b.id == boothId) with
        | some b =>
          if effMaxOperators b ≤ activeOpsCount db.booth_operations boothId then
            (db, .errCapacity (effMaxOperators b))
          else
            AM_insertOperation db now boothId info.name (digitsOf ph) newOpId newToken ip
        | none =>
          AM_insertOperation db now boothId info.name (digitsOf ph) newOpId newToken ip

/-- Result of the force-close start (operator-auth.js). -/
inductive OAStartResult where
  | ok (operationId : Nat) (boothId : Nat) (boothName : String)
  | err (reason : AttemptReason)
deriving DecidableEq

/-- The bulk update
`update({is_active:false, ended_at:now}).eq('booth_id', b).eq('is_active', true)`. -/
def closeActiveOps (ops : List BoothOperation) (boothId : Nat) (now : Nat) :
    List BoothOperation :=
  ops.map (fun op =>
    if op.booth_id == boothId && op.is_active then
      { op with is_active := false, ended_at := some now }
    else op)

/-- operator-auth.js `startBoothOperation(boothCode, operatorInfo)`:
validate the code, force-close every active operation of the booth,
insert a fresh active operation.  There is no admission check. -/
def OA_startBoothOperation (db : DB) (now : Nat) (boothCode : String)
    (info : OperatorInfo) (newOpId : Nat) : DB × OAStartResult :=
  match (validateBoothCode db now boothCode).2 with
  | .invalid r => (db, .err r)
  | .valid bId bName =>
    ({ db with
        booth_operations :=
          ⟨newOpId, bId, info.name, info.phone, now, none, true, 0⟩
            :: closeActiveOps db.booth_operations bId now },
     .ok newOpId bId bName)

/-- Result of auth-manager's `endBoothOperation`. -/
inductive EndResult where
  | ok (op : BoothOperation)
  | errInvalidSession
  | errNotFound
deriving DecidableEq

/-- auth-manager.js `endBoothOperation(operationId, sessionToken)`:
optional session authorization, then the participant count query
`participants.select('id').eq('booth_id', operationId)` (the source
compares the participant's `booth_id` with the operation id and applies
no time window), then the close update, then the session delete. -/
def AM_endBoothOperation (db : DB) (now operationId : Nat)
    (sessionToken : Option String) : DB × EndResult :=
  let authOk : Bool :=
    match sessionToken with
    | none => true
    | some tok =>
      match db.operator_sessions.find? (fun s => s.session_token == tok) with
      | none => false
      | some s => s.booth_operation_id == operationId
  if authOk then
    match db.booth_operations.find? (fun op => op.id == operationId) with
    | none => (db, .errNotFound)
    | some op =>
      ({ db with
          booth_operations := db.booth_operations.map (fun o =>
            if o.id == operationId then
              { o with ended_at := some now, is_active := false,
                       total_participants :=
                         (db.participants.filter (fun p => p.booth_id == operationId)).length }
            else o),
          operator_sessions :=
            match sessionToken with
            | none => db.operator_sessions
            | some tok => db.operator_sessions.filter (fun s => !(s.session_token == tok)) },
       .ok { op with ended_at := some now, is_active := false,
                     total_participants :=
                       (db.participants.filter (fun p => p.booth_id == operationId)).length })
  else (db, .errInvalidSession)

/-- operator-auth.js `endBoothOperation(operationId)`: unconditional
close update, success even when no row matches. -/
def OA_endBoothOperation (db : DB) (now operationId : Nat) : DB × Bool :=
  ({ db with
      booth_operations := db.booth_operations.map (fun op =>
        if op.id == operationId then
          { op with is_active := false, ended_at := some now }
        else op) },
   true)

/-! ## Session resolution -/

/-- Result of auth-manager's `getCurrentOperation`. -/
inductive CurrentOpResult where
  | ok (session : OperatorSession) (op : Option BoothOperation)
  | errNoSession
  | errInvalidSession
  | errExpired
deriving DecidableEq

/-- auth-manager.js `getCurrentOperation(sessionToken)`: token lookup,
expiry check `expires_at < now` (deleting the stale row), activity
touch, and the join with the bound operation.  The source performs no
check on whether the bound operation is still active. -/
def getCurrentOperation (db : DB) (now : Nat) (sessionToken : String) :
    DB × CurrentOpResult :=
  if sessionToken = "" then (db, .errNoSession)
  else
    match db.operator_sessions.find? (fun s => s.session_token == sessionToken) with
    | none => (db, .errInvalidSession)
    | some s =>
      if s.expires_at < now then
        ({ db with operator_sessions :=
            db.operator_sessions.filter (fun t => !(t.session_token == sessionToken)) },
         .errExpired)
      else
        ({ db with operator_sessions :=
            db.operator_sessions.map (fun t =>
              if t.session_token == sessionToken then { t with last_activity := now } else t) },
         .ok s (db.booth_operations.find? (fun op => op.id == s.booth_operation_id)))

/-- The local-storage session record of operator-auth.js. -/
structure LocalSession where
  operationId : Nat
  boothId : Nat
  expiresAt : Option Nat
deriving DecidableEq

/-- operator-auth.js `getOperatorSession()`: returns the stored session
unless `expiresAt` is set and strictly in the past, in which case the
record is cleared and `null` returned.  First component: the store after
the call; second: the returned session. -/
def getOperatorSession (store : Option LocalSession) (now : Nat) :
    Option LocalSession × Option LocalSession :=
  match store with
  | none => (none, none)
  | some s =>
    match s.expiresAt with
    | some e => if e < now then (none, none) else (some s, some s)
    | none => (some s, some s)

/-! ## Helper lemmas -/

/-- Unfolding the active-operation count over a cons. -/
theorem activeOpsCount_cons (op : BoothOperation) (ops : List BoothOperation) (bId : Nat) :
    activeOpsCount (op :: ops) bId =
      (if op.booth_id == bId && op.is_active then 1 else 0) + activeOpsCount ops bId := by
  by_cases h : (op.booth_id == bId && op.is_active) = true
  · simp [activeOpsCount, List.filter_cons, h, Nat.add_comm]
  · simp [activeOpsCount, List.filter_cons, h]

/-- After the force-close bulk update, a booth has no active operations. -/
theorem activeOpsCount_close (ops : List BoothOperation) (bId now : Nat) :
    activeOpsCount (closeActiveOps ops bId now) bId = 0 := by
  induction ops with
  | nil => rfl
  | cons op ops ih =>
    have hc : closeActiveOps (op :: ops) bId now =
        (if op.booth_id == bId && op.is_active then
           { op with is_active := false, ended_at := some now } else op)
          :: closeActiveOps ops bId now := rfl
    rw [hc, activeOpsCount_cons, ih]
    by_cases h : (op.booth_id == bId && op.is_active) = true
    · simp [h]
    · simp [h]

/-- The effective concurrent-operator limit is always positive. -/
theorem one_le_effMax (b : Booth) : 1 ≤ effMaxOperators b := by
  rcases h : b.max_operators with _ | m
  · simp [effMaxOperators, h]
  · simp only [effMaxOperators, h]
    by_cases hm : m = 0
    · simp [hm]
    · simp only [hm, if_false]
      omega

/-- Any code produced by the candidate loop passed the uniqueness check
and came from the plain generator. -/
theorem genAttempts_some (db : DB) (rand : Nat → (Fin 3 → Fin 26) × (Fin 3 → Fin 10)) :
    ∀ fuel start code, genAttempts db rand fuel start = some code →
      isCodeUnique db code = true ∧
      ∃ i, code = generateBoothCode (rand i).1 (rand i).2 := by
  intro fuel
  induction fuel with
  | zero => intro start code h; simp [genAttempts] at h
  | succ n ih =>
    intro start code h
    rw [genAttempts] at h
    by_cases hu : isCodeUnique db (generateBoothCode (rand start).1 (rand start).2) = true
    · rw [if_pos hu] at h
      have hc := Option.some.inj h
      exact ⟨hc ▸ hu, start, hc.symm⟩
    · rw [if_neg hu] at h
      exact ih (start + 1) code h

/-- Every letter-alphabet entry is an uppercase letter. -/
theorem letters_upper : ∀ i : Fin 26, isUpperLetter (lettersAlphabet.getD i.val 'A') = true := by
  decide

/-- Every digit-alphabet entry is a decimal digit. -/
theorem digits_digit : ∀ i : Fin 10, isDigitChar (digitsAlphabet.getD i.val '0') = true := by
  decide

/-- The format test on a literal six-character string. -/
theorem codeFormatOk_mk (a b c d e f : Char) :
    codeFormatOk (String.mk [a, b, c, d, e, f]) =
      (isUpperLetter a && isUpperLetter b && isUpperLetter c &&
       isDigitChar d && isDigitChar e && isDigitChar f) := rfl

/-- The plain generator always produces the documented format. -/
theorem generateBoothCode_format (ls : Fin 3 → Fin 26) (ds : Fin 3 → Fin 10) :
    codeFormatOk (generateBoothCode ls ds) = true := by
  rw [generateBoothCode, codeFormatOk_mk,
      letters_upper (ls 0), letters_upper (ls 1), letters_upper (ls 2),
      digits_digit (ds 0), digits_digit (ds 1), digits_digit (ds 2)]
  rfl

/-! ## Concrete stores used by witnesses and counterexamples -/

/-- Source address used in the rate-limit witness. -/
def attemptsAddr : String := "10.0.0.9"

/-- A store holding five recent failed attempts from `attemptsAddr`. -/
def db5 : DB := ⟨[⟨1, "B", some "ABC123", none, true, none⟩], [], [],
  [⟨"AAA111", some attemptsAddr, 900, false, none, some .wrongCode⟩,
   ⟨"AAA112", some attemptsAddr, 910, false, none, some .wrongCode⟩,
   ⟨"AAA113", some attemptsAddr, 920, false, none, some .wrongCode⟩,
   ⟨"AAA114", some attemptsAddr, 930, false, none, some .wrongCode⟩,
   ⟨"AAA115", some attemptsAddr, 940, false, none, some .wrongCode⟩], []⟩

/-- A store whose only session token is bound to operation 9. -/
def dbC10 : DB := ⟨[], [⟨5, 1, "A", none, 0, none, true, 0⟩],
  [⟨"t", 9, 1000, 0, none⟩], [], []⟩

/-! ## Claims -/

/-- C3 counterexample: `attemptsAddr` has five failed attempts inside
the trailing hour, yet the client-side validator — which takes no
address and performs no rate-limit gate — still looks the code up in
the `booths` table and returns the booth successfully, instead of
rejecting the attempt as rate-limited. -/
theorem C3_counterexample :
    5 ≤ check_ip_attempts db5 1000 attemptsAddr ∧
    (validateBoothCode db5 1000 "ABC123").2 = .valid 1 "B" := by
  decide

/-- C3 (amended), scoped to the database-side validator: with at least
five failed attempts from an address inside the trailing hour, the next
`validate_booth_code` call from that address is rejected as
rate-limited, independently of the `booths` table content; successful
attempts and attempts at least one hour old never count toward the
threshold.  The client-side `validateBoothCode` performs no rate
limiting at all. -/
theorem C3_rate_limit_window (db : DB) (now : Nat) (code ip : String) :
    (5 ≤ check_ip_attempts db now ip →
       (validate_booth_code db now code ip).2 = .invalid .rateLimited ∧
       ∀ bs : List Booth,
         (validate_booth_code { db with booths := bs } now code ip).2 = .invalid .rateLimited)
  ∧ (∀ a : CodeAttempt, a.success = true →
       check_ip_attempts { db with code_attempts := a :: db.code_attempts } now ip
         = check_ip_attempts db now ip)
  ∧ (∀ a : CodeAttempt, a.attempted_at + 3600 ≤ now →
       check_ip_attempts { db with code_attempts := a :: db.code_attempts } now ip
         = check_ip_attempts db now ip) := by
  refine ⟨fun h5 => ⟨?_, fun bs => ?_⟩, fun a ha => ?_, fun a ha => ?_⟩
  · rw [validate_booth_code, if_pos h5]
  · rw [validate_booth_code,
        if_pos (show 5 ≤ check_ip_attempts { db with booths := bs } now ip from h5)]
  · simp [check_ip_attempts, List.filter_cons, ha]
  · have hlt : ¬ (now < a.attempted_at + 3600) := by omega
    simp [check_ip_attempts, List.filter_cons, hlt]

/-- C3 witness: on a concrete store with five recent failures the sixth
attempt is rate-limited even though the attempted code exists. -/
theorem C3_rate_limit_window_witness :
    (validate_booth_code db5 1000 "ABC123" attemptsAddr).2 = .invalid .rateLimited :=
  ((C3_rate_limit_window db5 1000 "ABC123" attemptsAddr).1 (by decide)).1

/-- C10: when `endBoothOperation` is called with a session token that
either matches no stored session or matches one bound to a different
operation, the call fails and the store is completely unchanged. -/
theorem C10_end_auth_guard (db : DB) (now opId : Nat) (tok : String)
    (h : (match db.operator_sessions.find? (fun s => s.session_token == tok) with
          | none => true
          | some s => s.booth_operation_id != opId) = true) :
    AM_endBoothOperation db now opId (some tok) = (db, .errInvalidSession) := by
  unfold AM_endBoothOperation
  rcases hf : db.operator_sessions.find? (fun s => s.session_token == tok) with _ | s
  · simp [hf]
  · rw [hf] at h
    have hb : (s.booth_operation_id == opId) = false := by
      simpa [bne] using h
    simp [hf, hb]

/-- C10 witness: a token bound to operation 9 cannot end operation 5. -/
theorem C10_end_auth_guard_witness :
    AM_endBoothOperation dbC10 0 5 (some "t") = (dbC10, .errInvalidSession) :=
  C10_end_auth_guard dbC10 0 5 "t" (by decide)

/-- The admission-checked insert adds one active operation on the target
booth and leaves every other booth's count unchanged. -/
theorem activeOpsCount_insert (db : DB) (now boothId : Nat) (opName digits : String)
    (newOpId : Nat) (tok : String) (ip : Option String) :
    activeOpsCount
        (AM_insertOperation db now boothId opName digits newOpId tok ip).1.booth_operations
        boothId
      = activeOpsCount db.booth_operations boothId + 1 ∧
    ∀ otherId, ¬ otherId = boothId →
      activeOpsCount
          (AM_insertOperation db now boothId opName digits newOpId tok ip).1.booth_operations
          otherId
        = activeOpsCount db.booth_operations otherId := by
  constructor
  · simp only [AM_insertOperation]
    rw [activeOpsCount_cons]
    simp [Nat.add_comm]
  · intro otherId hne
    have hne' : ¬ (boothId = otherId) := fun h => hne h.symm
    simp only [AM_insertOperation]
    rw [activeOpsCount_cons]
    simp [hne']

/-- Rows surviving the force-close update: each is either an untouched
original row or the closed copy of a previously active row of the booth. -/
theorem closeActiveOps_mem (ops : List BoothOperation) (bId now : Nat) :
    ∀ op ∈ closeActiveOps ops bId now,
      op ∈ ops ∨
      ∃ op₀ ∈ ops, op₀.booth_id = bId ∧ op₀.is_active = true ∧
        op = { op₀ with is_active := false, ended_at := some now } := by
  induction ops with
  | nil => intro op hop; simp [closeActiveOps] at hop
  | cons a ops ih =>
    intro op hop
    have hc : closeActiveOps (a :: ops) bId now =
        (if a.booth_id == bId && a.is_active then
           { a with is_active := false, ended_at := some now } else a)
          :: closeActiveOps ops bId now := rfl
    rw [hc] at hop
    rcases List.mem_cons.mp hop with h | h
    · by_cases hcond : (a.booth_id == bId && a.is_active) = true
      · rw [if_pos hcond] at h
        simp only [Bool.and_eq_true, beq_iff_eq] at hcond
        exact Or.inr ⟨a, List.mem_cons_self a ops, hcond.1, hcond.2, h⟩
      · rw [if_neg hcond] at h
        exact Or.inl (h ▸ List.mem_cons_self a ops)
    · rcases ih op h with h1 | ⟨op₀, hm, h2⟩
      · exact Or.inl (List.mem_cons_of_mem a h1)
      · exact Or.inr ⟨op₀, List.mem_cons_of_mem a hm, h2⟩

/-- A successful operator-auth start determines the whole call: the code
validated to the returned booth, and the store received the new active
row consed onto the force-closed previous rows. -/
theorem OA_start_ok_shape (db : DB) (now : Nat) (code : String) (info : OperatorInfo)
    (newOpId oId bId : Nat) (bName : String)
    (hok : (OA_startBoothOperation db now code info newOpId).2 = .ok oId bId bName) :
    OA_startBoothOperation db now code info newOpId
      = ({ db with booth_operations :=
            (⟨newOpId, bId, info.name, info.phone, now, none, true, 0⟩ : BoothOperation)
              :: closeActiveOps db.booth_operations bId now },
         .ok newOpId bId bName) := by
  cases hv : (validateBoothCode db now code).2 with
  | invalid r =>
    simp [OA_startBoothOperation, hv] at hok
  | valid bId2 bName2 =>
    simp only [OA_startBoothOperation, hv] at hok ⊢
    simp only [OAStartResult.ok.injEq] at hok
    obtain ⟨h1, h2, h3⟩ := hok
    subst h2
    subst h3
    rfl

/-- Shared concrete store: booth 1 has `maxOperators = 1` and one active
operation, i.e. it is exactly at capacity. -/
def dbC1 : DB := ⟨[⟨1, "B", some "ABC123", none, true, some 1⟩],
  [⟨10, 1, "A", none, 0, none, true, 0⟩], [], [], []⟩

/-- Valid operator info used across witnesses. -/
def infoC1 : OperatorInfo := ⟨"Bob", some "01012345678", none, none, none⟩

/-- C1 counterexample: booth 1 is at capacity (one active operation,
effective `maxOperators` 1), yet the operator-auth `startBoothOperation`
succeeds instead of rejecting the start with an admission error. -/
theorem C1_counterexample :
    activeOpsCount dbC1.booth_operations 1 = 1 ∧
    (∀ b ∈ dbC1.booths, effMaxOperators b = 1) ∧
    (OA_startBoothOperation dbC1 100 "ABC123" infoC1 11).2 = .ok 11 1 "B" := by
  decide

/-- C1 (amended): the auth-manager start admits, with valid operator
info and an existing booth row, exactly when the booth's active count is
strictly below its effective limit, rejecting with the limit otherwise
and leaving the store untouched; a start never pushes the target booth
above its limit and never changes another booth's count; the
operator-auth start instead leaves exactly one active operation on the
booth after success; every effective limit is at least one. -/
theorem C1_admission_control (db : DB) (now boothId newOpId : Nat) (info : OperatorInfo)
    (tok : String) (ip : Option String) (b : Booth)
    (hname : ¬ info.name = "")
    (hphone : ∃ ph, info.phone = some ph ∧ ¬ ph = "" ∧ 10 ≤ (digitsOf ph).length)
    (hfind : db.booths.find? (fun x => x.id == boothId) = some b) :
    ((∃ oId t, (AM_startBoothOperation db now boothId info newOpId tok ip).2 = .ok oId t)
       ↔ activeOpsCount db.booth_operations boothId < effMaxOperators b)
  ∧ (effMaxOperators b ≤ activeOpsCount db.booth_operations boothId →
       AM_startBoothOperation db now boothId info newOpId tok ip
         = (db, .errCapacity (effMaxOperators b)))
  ∧ (activeOpsCount db.booth_operations boothId ≤ effMaxOperators b →
       activeOpsCount
           (AM_startBoothOperation db now boothId info newOpId tok ip).1.booth_operations
           boothId
         ≤ effMaxOperators b)
  ∧ (∀ otherId, ¬ otherId = boothId →
       activeOpsCount
           (AM_startBoothOperation db now boothId info newOpId tok ip).1.booth_operations
           otherId
         = activeOpsCount db.booth_operations otherId)
  ∧ (∀ code bId bName,
       (OA_startBoothOperation db now code info newOpId).2 = .ok newOpId bId bName →
       activeOpsCount
           (OA_startBoothOperation db now code info newOpId).1.booth_operations bId = 1)
  ∧ (∀ bb : Booth, 1 ≤ effMaxOperators bb) := by
  obtain ⟨ph, hp, hpne, hplen⟩ := hphone
  have hstep : AM_startBoothOperation db now boothId info newOpId tok ip =
      if effMaxOperators b ≤ activeOpsCount db.booth_operations boothId then
        (db, .errCapacity (effMaxOperators b))
      else AM_insertOperation db now boothId info.name (digitsOf ph) newOpId tok ip := by
    simp only [AM_startBoothOperation, hp, hfind]
    rw [if_neg hname, if_neg hpne,
        if_neg (show ¬ (digitsOf ph).length < 10 by omega)]
  have hOA : ∀ code bId bName,
      (OA_startBoothOperation db now code info newOpId).2 = .ok newOpId bId bName →
      activeOpsCount
          (OA_startBoothOperation db now code info newOpId).1.booth_operations bId = 1 := by
    intro code bId bName hok
    rw [OA_start_ok_shape db now code info newOpId newOpId bId bName hok]
    show activeOpsCount
        ((⟨newOpId, bId, info.name, info.phone, now, none, true, 0⟩ : BoothOperation)
          :: closeActiveOps db.booth_operations bId now) bId = 1
    rw [activeOpsCount_cons, activeOpsCount_close]
    simp
  by_cases hcap : effMaxOperators b ≤ activeOpsCount db.booth_operations boothId
  · rw [if_pos hcap] at hstep
    refine ⟨⟨?_, ?_⟩, fun _ => hstep, fun hle => ?_, fun otherId _ => ?_, hOA,
      fun bb => one_le_effMax bb⟩
    · rintro ⟨oId, t, hok⟩
      rw [hstep] at hok
      simp at hok
    · intro hlt
      exact absurd hlt (Nat.not_lt.mpr hcap)
    · rw [hstep]
      exact hle
    · rw [hstep]
  · rw [if_neg hcap] at hstep
    have hlt := Nat.not_le.mp hcap
    refine ⟨⟨fun _ => hlt, fun _ => ⟨newOpId, tok, ?_⟩⟩, fun hle => absurd hle hcap,
      fun _ => ?_, fun otherId hne => ?_, hOA, fun bb => one_le_effMax bb⟩
    · rw [hstep]
      rfl
    · rw [hstep, (activeOpsCount_insert db now boothId info.name (digitsOf ph) newOpId tok ip).1]
      omega
    · rw [hstep]
      exact (activeOpsCount_insert db now boothId info.name (digitsOf ph) newOpId tok ip).2
        otherId hne

/-- C1 witness: the auth-manager start at the at-capacity store is
rejected with the configured limit and the store is unchanged. -/
theorem C1_admission_control_witness :
    AM_startBoothOperation dbC1 0 1 infoC1 11 "t" none = (dbC1, .errCapacity 1) :=
  (C1_admission_control dbC1 0 1 11 infoC1 "t" none
      ⟨1, "B", some "ABC123", none, true, some 1⟩
      (by decide) ⟨"01012345678", rfl, by decide, by decide⟩ (by decide)).2.1 (by decide)

/-- Shared concrete store for the frame claims: booth 1 is well below
capacity (`maxOperators = 3`) and has one active operation. -/
def dbC6 : DB := ⟨[⟨1, "B", some "ABC123", none, true, some 3⟩],
  [⟨1, 1, "A", none, 0, none, true, 0⟩], [], [], []⟩

/-- C6 counterexample: with booth 1 below capacity, a successful
operator-auth start flips the existing active operation to
`is_active = false` and stamps its `ended_at`, i.e. it does not leave
other rows of the booth unchanged. -/
theorem C6_counterexample :
    activeOpsCount dbC6.booth_operations 1 = 1 ∧
    (∀ b ∈ dbC6.booths, effMaxOperators b = 3) ∧
    (OA_startBoothOperation dbC6 100 "ABC123" infoC1 2).2 = .ok 2 1 "B" ∧
    (OA_startBoothOperation dbC6 100 "ABC123" infoC1 2).1.booth_operations.find?
        (fun op => op.id == 1)
      = some ⟨1, 1, "A", none, 0, some 100, false, 0⟩ := by
  decide

/-- C6 (amended): the auth-manager start only ever prepends a new row
(pre-existing rows survive unchanged); the operator-auth start, on
success, prepends its new row to the force-closed list, and every row of
that list is either an untouched original or the closed copy of a
previously active row of the target booth. -/
theorem C6_start_frame (db : DB) (now boothId newOpId : Nat) (info : OperatorInfo)
    (tok : String) (ip : Option String) (code : String) :
    ((AM_startBoothOperation db now boothId info newOpId tok ip).1.booth_operations
       = db.booth_operations ∨
     ∃ newOp, (AM_startBoothOperation db now boothId info newOpId tok ip).1.booth_operations
       = newOp :: db.booth_operations)
  ∧ (∀ bId bName,
       (OA_startBoothOperation db now code info newOpId).2 = .ok newOpId bId bName →
       (OA_startBoothOperation db now code info newOpId).1.booth_operations
         = (⟨newOpId, bId, info.name, info.phone, now, none, true, 0⟩ : BoothOperation)
             :: closeActiveOps db.booth_operations bId now)
  ∧ (∀ op ∈ closeActiveOps db.booth_operations boothId now,
       op ∈ db.booth_operations ∨
       ∃ op₀ ∈ db.booth_operations, op₀.booth_id = boothId ∧ op₀.is_active = true ∧
         op = { op₀ with is_active := false, ended_at := some now }) := by
  refine ⟨?_, ?_, closeActiveOps_mem db.booth_operations boothId now⟩
  · unfold AM_startBoothOperation
    repeat' split
    all_goals first
      | (left; rfl)
      | (right; exact ⟨_, rfl⟩)
  · intro bId bName hok
    rw [OA_start_ok_shape db now code info newOpId newOpId bId bName hok]

/-- C6 witness: the concrete successful operator-auth start produces
exactly the new row consed onto the force-closed previous rows. -/
theorem C6_start_frame_witness :
    (OA_startBoothOperation dbC6 100 "ABC123" infoC1 2).1.booth_operations
      = (⟨2, 1, infoC1.name, infoC1.phone, 100, none, true, 0⟩ : BoothOperation)
          :: closeActiveOps dbC6.booth_operations 1 100 :=
  (C6_start_frame dbC6 100 1 2 infoC1 "t" none "ABC123").2.1 1 "B" (by decide)

/-- Store with a single already-closed operation: closed at 100 with 7
recorded participants. -/
def dbC2 : DB := ⟨[], [⟨1, 2, "A", none, 10, some 100, false, 7⟩], [], [], []⟩

/-- C2 counterexample: ending the already-closed operation 1 again at
time 200 returns success but overwrites `ended_at` (100 becomes 200) and
`total_participants` (7 becomes 0) — the row is not left unchanged. -/
theorem C2_counterexample :
    dbC2.booth_operations.find? (fun op => op.id == 1)
      = some ⟨1, 2, "A", none, 10, some 100, false, 7⟩ ∧
    (AM_endBoothOperation dbC2 200 1 none).2
      = .ok ⟨1, 2, "A", none, 10, some 200, false, 0⟩ ∧
    (AM_endBoothOperation dbC2 200 1 none).1.booth_operations.find? (fun op => op.id == 1)
      = some ⟨1, 2, "A", none, 10, some 200, false, 0⟩ := by
  decide

/-- C2 (amended): ending an operation whose row exists — already closed
or not — returns success, but rather than being a field-preserving
no-op it stamps `ended_at` with the current time, keeps `is_active`
false, and recomputes `total_participants` from the (mis-keyed)
participant query. -/
theorem C2_end_overwrite (db : DB) (now opId : Nat) (op : BoothOperation)
    (hfind : db.booth_operations.find? (fun o => o.id == opId) = some op)
    (hclosed : op.is_active = false) :
    (AM_endBoothOperation db now opId none).2
      = .ok { op with
              ended_at := some now
              is_active := false
              total_participants :=
                (db.participants.filter (fun p => p.booth_id == opId)).length } ∧
    ∀ o ∈ (AM_endBoothOperation db now opId none).1.booth_operations,
      o.id = opId →
        o.ended_at = some now ∧ o.is_active = false ∧
        o.total_participants
          = (db.participants.filter (fun p => p.booth_id == opId)).length := by
  have hshape : AM_endBoothOperation db now opId none
      = ({ db with booth_operations := db.booth_operations.map (fun o =>
            if o.id == opId then
              { o with
                ended_at := some now
                is_active := false
                total_participants :=
                  (db.participants.filter (fun p => p.booth_id == opId)).length }
            else o) },
         .ok { op with
               ended_at := some now
               is_active := false
               total_participants :=
                 (db.participants.filter (fun p => p.booth_id == opId)).length }) := by
    simp only [AM_endBoothOperation, hfind]
    rw [if_pos trivial]
  constructor
  · rw [hshape]
  · intro o ho hid
    rw [hshape] at ho
    have ho' : o ∈ db.booth_operations.map (fun o =>
        if o.id == opId then
          { o with
            ended_at := some now
            is_active := false
            total_participants :=
              (db.participants.filter (fun p => p.booth_id == opId)).length }
        else o) := ho
    obtain ⟨o₀, ho₀, rfl⟩ := List.mem_map.mp ho'
    by_cases h0 : (o₀.id == opId) = true
    · simp [h0]
    · simp only [h0, Bool.false_eq_true, if_false] at hid ⊢
      simp only [beq_iff_eq] at h0
      exact absurd hid h0

/-- C2 witness: the concrete repeated end returns success with the
overwritten row. -/
theorem C2_end_overwrite_witness :
    (AM_endBoothOperation dbC2 200 1 none).2
      = .ok ⟨1, 2, "A", none, 10, some 200, false, 0⟩ :=
  (C2_end_overwrite dbC2 200 1 ⟨1, 2, "A", none, 10, some 100, false, 7⟩
    (by decide) rfl).1

/-- Session bound to operation 1, expiring at 1000. -/
def sessC5 : OperatorSession := ⟨"t", 1, 1000, 0, none⟩

/-- Operation 1, closed at time 50. -/
def opC5 : BoothOperation := ⟨1, 2, "A", none, 10, some 50, false, 3⟩

/-- Store pairing the unexpired session with its closed operation. -/
def dbC5 : DB := ⟨[], [opC5], [sessC5], [], []⟩

/-- C5 counterexample: at time 100 the session is not yet expired but
its bound operation is closed; session resolution nevertheless succeeds
and returns the closed operation, instead of rejecting the session as
invalid. -/
theorem C5_counterexample :
    opC5.is_active = false ∧ opC5.ended_at = some 50 ∧
    100 ≤ sessC5.expires_at ∧
    (getCurrentOperation dbC5 100 "t").2 = .ok sessC5 (some opC5) := by
  decide

/-- C5 (amended): a found session is rejected as expired exactly when
the current time is strictly past `expires_at`, in which case the stale
row is deleted; otherwise resolution succeeds and returns the bound
operation with no check of its active flag; the local-storage variant
clears and rejects a stored session exactly under the same strict
comparison. -/
theorem C5_session_expiry (db : DB) (now : Nat) (tok : String) (s : OperatorSession)
    (htok : ¬ tok = "")
    (hfind : db.operator_sessions.find? (fun t => t.session_token == tok) = some s) :
    ((getCurrentOperation db now tok).2 = .errExpired ↔ s.expires_at < now)
  ∧ (s.expires_at < now →
       (getCurrentOperation db now tok).1.operator_sessions
         = db.operator_sessions.filter (fun t => !(t.session_token == tok)))
  ∧ (¬ s.expires_at < now →
       (getCurrentOperation db now tok).2
         = .ok s (db.booth_operations.find? (fun op => op.id == s.booth_operation_id)))
  ∧ (∀ ls : LocalSession, ∀ e, ls.expiresAt = some e →
       ((getOperatorSession (some ls) now).2 = none ↔ e < now)) := by
  have hlocal : ∀ ls : LocalSession, ∀ e, ls.expiresAt = some e →
      ((getOperatorSession (some ls) now).2 = none ↔ e < now) := by
    intro ls e he
    simp only [getOperatorSession, he]
    by_cases h : e < now
    · simp [h]
    · simp [h]
  have hshape : getCurrentOperation db now tok =
      if s.expires_at < now then
        ({ db with operator_sessions :=
            db.operator_sessions.filter (fun t => !(t.session_token == tok)) },
         .errExpired)
      else
        ({ db with operator_sessions :=
            db.operator_sessions.map (fun t =>
              if t.session_token == tok then { t with last_activity := now } else t) },
         .ok s (db.booth_operations.find? (fun op => op.id == s.booth_operation_id))) := by
    simp only [getCurrentOperation, hfind]
    rw [if_neg htok]
  by_cases hexp : s.expires_at < now
  · rw [if_pos hexp] at hshape
    refine ⟨⟨fun _ => hexp, fun _ => ?_⟩, fun _ => ?_, fun h => absurd hexp h, hlocal⟩
    · rw [hshape]
    · rw [hshape]
  · rw [if_neg hexp] at hshape
    refine ⟨⟨fun h => ?_, fun h => absurd h hexp⟩, fun h => absurd h hexp,
      fun _ => ?_, hlocal⟩
    · rw [hshape] at h
      simp at h
    · rw [hshape]

/-- C5 witness: a concrete session expiring at 1000 is rejected as
expired at time 2000. -/
theorem C5_session_expiry_witness :
    (getCurrentOperation dbC5 2000 "t").2 = .errExpired :=
  (C5_session_expiry dbC5 2000 "t" sessC5 (by decide) (by decide)).1.mpr (by decide)

/-- Operation 5 on booth 2, started at 50 and still active. -/
def opC7 : BoothOperation := ⟨5, 2, "A", none, 50, none, true, 0⟩

/-- Store where booth 2 has one participant at time 60, i.e. after the
operation started. -/
def dbC7 : DB := ⟨[], [opC7], [], [], [⟨1, 2, 60⟩]⟩

/-- C7: the end step queries participants with the operation id in the
`booth_id` column and no time window.  At this store the count mandated
by the spec — participants of the owning booth 2 at or after
`started_at` 50 — is 1, yet the close stores `total_participants = 0`
because no participant row has `booth_id = 5`. -/
theorem C7_participant_count_bug :
    (dbC7.participants.filter (fun p => p.booth_id == opC7.booth_id
        && decide (opC7.started_at ≤ p.created_at))).length = 1 ∧
    (AM_endBoothOperation dbC7 100 5 none).2
      = .ok ⟨5, 2, "A", none, 50, some 100, false, 0⟩ ∧
    (AM_endBoothOperation dbC7 100 5 none).1.booth_operations.find? (fun o => o.id == 5)
      = some ⟨5, 2, "A", none, 50, some 100, false, 0⟩ := by
  decide

/-- Store with one coded booth and an empty audit table. -/
def dbC4 : DB := ⟨[⟨1, "B", some "ABC123", none, true, none⟩], [], [], [], []⟩

/-- C4 counterexample: the client-side validator takes the not-found
branch for "XYZ999" yet appends no CodeAttempt row at all — not the
exactly-one row the claim requires of every validation call. -/
theorem C4_counterexample :
    (validateBoothCode dbC4 0 "XYZ999").2 = .invalid .wrongCode ∧
    (validateBoothCode dbC4 0 "XYZ999").1.code_attempts.length = 0 ∧
    dbC4.code_attempts.length = 0 := by
  decide

/-- C4 (amended): the database-side validator appends exactly one
CodeAttempt row on every call, carrying the attempted code, the source
address, the call time, and a success flag that is true exactly on the
valid branch; in particular a non-rate-limited attempt with a
nonexistent code records a failed row with the wrong-code reason.  The
client-side validator records nothing. -/
theorem C4_sql_audit (db : DB) (now : Nat) (code ip : String) :
    (∃ a : CodeAttempt,
       (validate_booth_code db now code ip).1.code_attempts = a :: db.code_attempts ∧
       a.attempted_code = code ∧ a.ip_address = some ip ∧ a.attempted_at = now ∧
       (a.success = true ↔
         ∃ bId bName, (validate_booth_code db now code ip).2 = .valid bId bName))
  ∧ (check_ip_attempts db now ip < 5 →
       db.booths.find? (fun b => b.booth_code == some code) = none →
       (validate_booth_code db now code ip).2 = .invalid .wrongCode ∧
       ∃ a : CodeAttempt,
         (validate_booth_code db now code ip).1.code_attempts = a :: db.code_attempts ∧
         a.success = false ∧ a.error_message = some .wrongCode) := by
  by_cases h5 : 5 ≤ check_ip_attempts db now ip
  · have hshape : validate_booth_code db now code ip
        = (recordAttempt db ⟨code, some ip, now, false, none, some .rateLimited⟩,
           .invalid .rateLimited) := by
      rw [validate_booth_code, if_pos h5]
    refine ⟨⟨⟨code, some ip, now, false, none, some .rateLimited⟩,
      by rw [hshape]; rfl, rfl, rfl, rfl, ?_⟩, fun hlt => absurd h5 (by omega)⟩
    constructor
    · intro hfalse
      simp at hfalse
    · rintro ⟨bId, bName, hv⟩
      rw [hshape] at hv
      simp at hv
  · cases hb : db.booths.find? (fun b => b.booth_code == some code) with
    | none =>
      have hshape : validate_booth_code db now code ip
          = (recordAttempt db ⟨code, some ip, now, false, none, some .wrongCode⟩,
             .invalid .wrongCode) := by
        rw [validate_booth_code, if_neg h5]
        simp only [hb]
      refine ⟨⟨⟨code, some ip, now, false, none, some .wrongCode⟩,
        by rw [hshape]; rfl, rfl, rfl, rfl, ?_⟩,
        fun _ _ => ⟨by rw [hshape],
          ⟨⟨code, some ip, now, false, none, some .wrongCode⟩,
           by rw [hshape]; rfl, rfl, rfl⟩⟩⟩
      constructor
      · intro hfalse
        simp at hfalse
      · rintro ⟨bId, bName, hv⟩
        rw [hshape] at hv
        simp at hv
    | some b =>
      have hnone : check_ip_attempts db now ip < 5 →
          some b = none →
          (validate_booth_code db now code ip).2 = .invalid .wrongCode ∧
          ∃ a : CodeAttempt,
            (validate_booth_code db now code ip).1.code_attempts = a :: db.code_attempts ∧
            a.success = false ∧ a.error_message = some .wrongCode := by
        intro _ hcontra
        simp at hcontra
      by_cases hexp : codeExpired b now = true
      · have hshape : validate_booth_code db now code ip
            = (recordAttempt db ⟨code, some ip, now, false, some b.id, some .expiredCode⟩,
               .invalid .expiredCode) := by
          rw [validate_booth_code, if_neg h5]
          simp only [hb]
          rw [if_pos hexp]
        refine ⟨⟨⟨code, some ip, now, false, some b.id, some .expiredCode⟩,
          by rw [hshape]; rfl, rfl, rfl, rfl, ?_⟩, hnone⟩
        constructor
        · intro hfalse
          simp at hfalse
        · rintro ⟨bId, bName, hv⟩
          rw [hshape] at hv
          simp at hv
      · by_cases hact : b.is_active = false
        · have hshape : validate_booth_code db now code ip
              = (recordAttempt db ⟨code, some ip, now, false, some b.id, some .inactiveBooth⟩,
                 .invalid .inactiveBooth) := by
            rw [validate_booth_code, if_neg h5]
            simp only [hb]
            rw [if_neg hexp, if_pos hact]
          refine ⟨⟨⟨code, some ip, now, false, some b.id, some .inactiveBooth⟩,
            by rw [hshape]; rfl, rfl, rfl, rfl, ?_⟩, hnone⟩
          constructor
          · intro hfalse
            simp at hfalse
          · rintro ⟨bId, bName, hv⟩
            rw [hshape] at hv
            simp at hv
        · have hshape : validate_booth_code db now code ip
              = (recordAttempt db ⟨code, some ip, now, true, some b.id, none⟩,
                 .valid b.id b.name) := by
            rw [validate_booth_code, if_neg h5]
            simp only [hb]
            rw [if_neg hexp, if_neg hact]
          refine ⟨⟨⟨code, some ip, now, true, some b.id, none⟩,
            by rw [hshape]; rfl, rfl, rfl, rfl, ?_⟩, hnone⟩
          exact ⟨fun _ => ⟨b.id, b.name, by rw [hshape]⟩, fun _ => rfl⟩

/-- C4 witness: validating the nonexistent code "XYZ999" from a fresh
address returns not-found and appends the corresponding failed row. -/
theorem C4_sql_audit_witness :
    (validate_booth_code dbC4 0 "XYZ999" attemptsAddr).2 = .invalid .wrongCode :=
  ((C4_sql_audit dbC4 0 "XYZ999" attemptsAddr).2 (by decide) (by decide)).1

/-- Constant random stream: every draw yields letter index 0 and digit
index 0, i.e. the candidate "AAA000". -/
def randConst : Nat → (Fin 3 → Fin 26) × (Fin 3 → Fin 10) := fun _ => (fun _ => 0, fun _ => 0)

/-- Store in which both the only random candidate "AAA000" and the
fallback code "XX1005" are already assigned to booths. -/
def dbC8 : DB := ⟨[⟨1, "X1", some "AAA000", none, true, none⟩,
                   ⟨2, "Y1", some "XX1005", none, true, none⟩], [], [], [], []⟩

/-- C8 counterexample: with all ten candidates colliding, the call
returns the timestamp fallback "XX1005" even though booth 2 already
holds that code — the fallback bypasses the uniqueness check. -/
theorem C8_counterexample :
    generateUniqueBoothCode dbC8 randConst 10 1296 5 = "XX1005" ∧
    isCodeUnique dbC8 "XX1005" = false := by
  decide

/-- Store with no booths at all. -/
def dbEmptyBooths : DB := ⟨[], [], [], [], []⟩

/-- C8 (amended): every code delivered by the candidate loop passed the
uniqueness check against the store and is returned as-is; only when all
`maxAttempts` candidates collide does the call return the
timestamp-derived fallback, which is emitted without a uniqueness
check. -/
theorem C8_unique_candidates (db : DB) (rand : Nat → (Fin 3 → Fin 26) × (Fin 3 → Fin 10))
    (maxAttempts timestamp : Nat) (d : Fin 10) :
    (∀ start code, genAttempts db rand maxAttempts start = some code →
       isCodeUnique db code = true)
  ∧ (∀ code, genAttempts db rand maxAttempts 0 = some code →
       generateUniqueBoothCode db rand maxAttempts timestamp d = code)
  ∧ (genAttempts db rand maxAttempts 0 = none →
       generateUniqueBoothCode db rand maxAttempts timestamp d
         = fallbackBoothCode timestamp d) := by
  refine ⟨fun start code h => (genAttempts_some db rand maxAttempts start code h).1,
    fun code h => ?_, fun h => ?_⟩
  · simp only [generateUniqueBoothCode, h]
  · simp only [generateUniqueBoothCode, h]

/-- C8 witness: with an empty store the first candidate "AAA000" is
unique and returned by the loop. -/
theorem C8_unique_candidates_witness :
    isCodeUnique dbEmptyBooths "AAA000" = true :=
  (C8_unique_candidates dbEmptyBooths randConst 10 0 0).1 0 "AAA000" (by decide)

/-- C9 counterexample: the fallback code delivered at capacity is six
characters long but is not three uppercase letters followed by three
digits ("XX1005" has the digit '1' in its third position). -/
theorem C9_counterexample :
    codeFormatOk (generateUniqueBoothCode dbC8 randConst 10 1296 5) = false ∧
    (generateUniqueBoothCode dbC8 randConst 10 1296 5).length = 6 := by
  decide

/-- C9 (amended): every code from the plain generator — and hence every
checked candidate delivered by the unique-code loop — is exactly three
uppercase letters followed by three digits; the fallback code instead
consists of 'X', 'X', the last at-most-three base-36 characters of the
timestamp, and one digit, which need not match that format. -/
theorem C9_code_format (ls : Fin 3 → Fin 26) (ds : Fin 3 → Fin 10)
    (db : DB) (rand : Nat → (Fin 3 → Fin 26) × (Fin 3 → Fin 10))
    (maxAttempts timestamp : Nat) (d : Fin 10) :
    codeFormatOk (generateBoothCode ls ds) = true
  ∧ (∀ start code, genAttempts db rand maxAttempts start = some code →
       codeFormatOk code = true)
  ∧ (∃ mid, (fallbackBoothCode timestamp d).toList
        = 'X' :: 'X' :: (mid ++ [digitsAlphabet.getD d.val '0']) ∧
      mid.length ≤ 3 ∧ isDigitChar (digitsAlphabet.getD d.val '0') = true) := by
  refine ⟨generateBoothCode_format ls ds, ?_, ?_⟩
  · intro start code h
    obtain ⟨-, i, rfl⟩ := genAttempts_some db rand maxAttempts start code h
    exact generateBoothCode_format (rand i).1 (rand i).2
  · refine ⟨lastThree (toBase36Upper timestamp), rfl, ?_, digits_digit d⟩
    simp only [lastThree, List.length_drop]
    omega

/-- C9 witness: the loop's delivered candidate "AAA000" satisfies the
documented format. -/
theorem C9_code_format_witness :
    codeFormatOk "AAA000" = true :=
  (C9_code_format (fun _ => 0) (fun _ => 0) dbEmptyBooths randConst 1 0 0).2.1
    0 "AAA000" (by decide)

end FestivalBooth
